import Mathlib

/-!
Shallow embedding of the Transit Data Client & Map Synchronization layer of
the aty-coverage-analyzer frontend.

Embedded sources:
* `src/frontend/src/config/api.ts` — the `transportAPI` repository object:
  typed request functions (`getStops`, `getRoutes`, `getAlternativeRoutes`,
  `getCoverageAnalysis`, `getSystemStats`) and `connectToWebSocket`.
* `src/frontend/src/components/TransportMap.tsx` — the map component
  `fetchStops` effect and its render branches (spinner / error / map).

Modelling conventions:
* A network interaction is driven by an environment-chosen `HttpOutcome`:
  either the transport layer throws (promise rejection of `fetch` or
  `response.json()`), or an HTTP response arrives with its `ok` flag and the
  parsed JSON body.  Each repository function is embedded as a pure function
  from its arguments and that outcome to the pair of (the list of network
  requests it issues, its result).  A thrown JavaScript `Error` is modelled
  as `Except.error` carrying the `message` string of the error (every value the
  embedded code throws is an `Error` built from a message).
* Numeric JSON fields (coordinates, counters, capacities) are modelled as
  `Int`; no claim under study depends on fractional values.
* A JSON key that may be absent at runtime is an `Option` field; the
  JavaScript truthiness test `response.data.sample_stops` is `Option.isSome`
  (an empty array is truthy in JavaScript, and `some []` passes the test
  here as well).  A response body lacking the whole `data` object behaves,
  for the guard in `TransportMap`, like one whose `sample_stops` is absent:
  either way the success branch is not taken; it is modelled as
  `sample_stops := none`.
* `fetch(url)` is called with no init options in the source: the embedded
  `Request` record therefore carries `timeoutMs := none` (no timeout or
  abort signal is configured at any call site).
-/

namespace ATY

/-- Embedding of `interface Stop` in `api.ts` (coordinates as scaled integers, see the
module conventions). -/
structure Stop where
  stop_id : String
  stop_name : String
  stop_lat : Int
  stop_lon : Int
  deriving DecidableEq

/-- Embedding of `interface Route` in `api.ts`. -/
structure Route where
  route_id : String
  route_long_name : String
  deriving DecidableEq

/-- Embedding of `interface AlternativeRoute` in `api.ts`. -/
structure AlternativeRoute where
  origen : String
  destino : String
  ruta_principal : String
  ruta_alterna : String
  tiempo_estimado : Int
  transbordos : List String
  deriving DecidableEq

/-- Embedding of `interface CoverageAnalysis` in `api.ts`; `horas_pico` is optional and
holds (hour, capacity) samples. -/
structure CoverageAnalysis where
  cve_ageb : String
  up_net : Int
  down_net : Int
  flujo : Int
  aforo : Int
  horas_pico : Option (List (String × Int))
  deriving DecidableEq

/-- One element of `top_agebs_por_aforo` in the stats payload of `api.ts`. -/
structure TopAgeb where
  ageb : String
  aforo_promedio : Int
  deriving DecidableEq

/-- The `data` object of the stats endpoint response in `api.ts`. -/
structure SystemStatsData where
  total_agebs : Int
  total_paradas : Int
  total_rutas : Int
  aforo_total : Int
  top_agebs_por_aforo : List TopAgeb
  deriving DecidableEq

/-- The `data` object of the stops endpoint response.  `sample_stops` is an
`Option` because the runtime JSON may lack the key (the component guards on
its truthiness). -/
structure StopsData where
  sample_stops : Option (List Stop)
  deriving DecidableEq

/-- The `data` object of the routes endpoint response. -/
structure RoutesData where
  routes : Option (List Route)
  deriving DecidableEq

/-- The `data` object of the alternative-routes endpoint response. -/
structure AlternativesData where
  alternatives : Option (List AlternativeRoute)
  deriving DecidableEq

/-- The `data` object of the coverage endpoint response. -/
structure AnalysisData where
  analysis : Option CoverageAnalysis
  deriving DecidableEq

/-- Embedding of `interface ApiResponse<T>` in `api.ts`. -/
structure ApiResponse (β : Type) where
  status : String
  data : β
  message : Option String
  deriving DecidableEq

/-- The `endpoints` object of `config` in `api.ts`. -/
structure Endpoints where
  stops : String
  routes : String
  alternativeRoutes : String
  coverage : String
  stats : String
  deriving DecidableEq

/-- Shape of the `config` object of `api.ts`. -/
structure Config where
  endpoints : Endpoints
  deriving DecidableEq

/-- Embedding of `export const config` in `api.ts`. -/
def config : Config :=
  { endpoints :=
    { stops := "/api/debug/paradas"
      routes := "/api/rutas"
      alternativeRoutes := "/api/rutas/alternativas"
      coverage := "/api/cobertura"
      stats := "/api/debug/stats" } }

/-- A network request as issued by a `fetch(url)` call site.  The source
passes no init options, so no timeout or abort signal accompanies any
request; `timeoutMs` records the (absent) timeout configuration. -/
structure Request where
  url : String
  timeoutMs : Option Nat
  deriving DecidableEq

/-- Environment-chosen outcome of the single `fetch` a repository function
performs: the transport layer throws (carrying the message of the `Error`), or a
response arrives with its `ok` flag and parsed body `β`. -/
inductive HttpOutcome (β : Type) where
  | throwErr (msg : String)
  | resp (ok : Bool) (body : β)
  deriving DecidableEq

namespace transportAPI

/-- Embedding of `transportAPI.getStops` in `api.ts`: one `fetch` of the stops endpoint;
throws (here: `Except.error`) on transport failure or a non-ok response,
otherwise returns the parsed body unchanged.  The `catch` block in the
source logs and rethrows, so the error propagates to the caller. -/
def getStops (o : HttpOutcome (ApiResponse StopsData)) :
    List Request × Except String (ApiResponse StopsData) :=
  ([{ url := config.endpoints.stops, timeoutMs := none }],
   match o with
   | .throwErr m => .error m
   | .resp ok body => if ok then .ok body else .error "Error al obtener paradas")

/-- Embedding of `transportAPI.getRoutes` in `api.ts`. -/
def getRoutes (o : HttpOutcome (ApiResponse RoutesData)) :
    List Request × Except String (ApiResponse RoutesData) :=
  ([{ url := config.endpoints.routes, timeoutMs := none }],
   match o with
   | .throwErr m => .error m
   | .resp ok body => if ok then .ok body else .error "Error al obtener rutas")

/-- Embedding of `transportAPI.getAlternativeRoutes` in `api.ts`: interpolates both
identifiers into the query string and issues the `fetch` unconditionally —
the source contains no validation of `origen` or `destino`. -/
def getAlternativeRoutes (origen destino : String)
    (o : HttpOutcome (ApiResponse AlternativesData)) :
    List Request × Except String (ApiResponse AlternativesData) :=
  ([{ url := config.endpoints.alternativeRoutes ++ "?origen=" ++ origen ++
        "&destino=" ++ destino,
      timeoutMs := none }],
   match o with
   | .throwErr m => .error m
   | .resp ok body =>
       if ok then .ok body else .error "Error al obtener rutas alternativas")

/-- Embedding of `transportAPI.getCoverageAnalysis` in `api.ts`. -/
def getCoverageAnalysis (ageb : String)
    (o : HttpOutcome (ApiResponse AnalysisData)) :
    List Request × Except String (ApiResponse AnalysisData) :=
  ([{ url := config.endpoints.coverage ++ "/" ++ ageb, timeoutMs := none }],
   match o with
   | .throwErr m => .error m
   | .resp ok body =>
       if ok then .ok body
       else .error "Error al obtener análisis de cobertura")

/-- Embedding of `transportAPI.getSystemStats` in `api.ts`: fetches the stats endpoint and
returns the parsed body unchanged — in particular it applies no ordering of
its own to `top_agebs_por_aforo`. -/
def getSystemStats (o : HttpOutcome (ApiResponse SystemStatsData)) :
    List Request × Except String (ApiResponse SystemStatsData) :=
  ([{ url := config.endpoints.stats, timeoutMs := none }],
   match o with
   | .throwErr m => .error m
   | .resp ok body =>
       if ok then .ok body
       else .error "Error al obtener estadísticas del sistema")

end transportAPI

/-- An effect a WebSocket event handler may perform, as visible in the
source: the handlers in `api.ts` only log; the other constructors record the
effects a handler could have performed and demonstrably does not (opening a
new connection, writing fetched data into component state). -/
inductive WsAction where
  | log (msg : String)
  | connect (url : String)
  | storeWrite (kind : String)
  deriving DecidableEq

/-- Whether an action is a pure console log. -/
def WsAction.isLog : WsAction → Bool
  | .log _ => true
  | _ => false

/-- Whether an action opens a new connection. -/
def WsAction.isConnect : WsAction → Bool
  | .connect _ => true
  | _ => false

/-- Whether an action writes to fetched-resource state. -/
def WsAction.isStoreWrite : WsAction → Bool
  | .storeWrite _ => true
  | _ => false

/-- The relevant part of `window.location`: its `protocol` (with trailing
colon, as in the DOM) and `host`. -/
structure PageLocation where
  protocol : String
  host : String
  deriving DecidableEq

/-- A constructed WebSocket as `connectToWebSocket` returns it: its URL and,
for each event, the effect list of the installed handler (`none` for
`onmessage` means no handler was installed at all). -/
structure WebSocketObj where
  url : String
  onopen : List WsAction
  onerror : List WsAction
  onclose : List WsAction
  onmessage : Option (String → List WsAction)

namespace transportAPI

/-- Embedding of `transportAPI.connectToWebSocket` in `api.ts`: derives the socket URL
from the page location (`https:` maps to `wss:`, anything else to `ws:`),
installs logging-only `onopen`, `onerror` and `onclose` handlers, installs
no `onmessage` handler, and returns the socket. -/
def connectToWebSocket (loc : PageLocation) : WebSocketObj :=
  let protocol := if loc.protocol = "https:" then "wss:" else "ws:"
  let wsURL := protocol ++ "//" ++ loc.host ++ "/ws/va-y-ven"
  { url := wsURL
    onopen := [.log "WebSocket Connected"]
    onerror := [.log "WebSocket error:"]
    onclose := [.log "WebSocket connection closed"]
    onmessage := none }

end transportAPI

namespace TransportMap

/-- The mutable state of the `TransportMap` component: the `stops`,
`loading` and `error` `useState` hooks. -/
structure MapState where
  stops : List Stop
  loading : Bool
  error : Option String
  deriving DecidableEq

/-- State of the component at mount:
`useState<Stop[]>([])`, `useState(true)`, `useState<string | null>(null)`. -/
def initialState : MapState := { stops := [], loading := true, error := none }

/-- The `fetchStops` effect of `TransportMap.tsx`, as a transition on the
component state driven by the outcome of the one `transportAPI.getStops`
call it awaits:
* `setLoading(true)` first;
* on a returned body, the guard
  `response.status == "success" && response.data.sample_stops` selects
  between `setStops(...)` and `setError("No se pudieron cargar las paradas")`;
* on a thrown `Error`, the `catch` block sets the error to its message
  (every value thrown by the embedded code is an `Error`);
* the `finally` block runs `setLoading(false)` on every path.
The whole body is wrapped in `try`/`catch`, so the effect always settles in
a state and never rethrows; that totality is what the Lean function type
expresses. -/
def fetchStops (s : MapState) (o : HttpOutcome (ApiResponse StopsData)) :
    MapState :=
  let s1 := { s with loading := true }
  let s2 :=
    match (transportAPI.getStops o).2 with
    | .ok response =>
        if response.status == "success" && response.data.sample_stops.isSome
        then { s1 with stops := response.data.sample_stops.getD [] }
        else { s1 with error := some "No se pudieron cargar las paradas" }
    | .error m => { s1 with error := some m }
  { s2 with loading := false }

/-- The three mutually exclusive render branches of `TransportMap.tsx`. -/
inductive RenderedView where
  | spinner
  | errorView (msg : String)
  | mapView (stops : List Stop)
  deriving DecidableEq

/-- The render function of `TransportMap.tsx`: the `if (loading)` early
return shows the spinner, the `if (error)` early return shows the error
panel, and otherwise the map with the stored stop markers is drawn. -/
def render (s : MapState) : RenderedView :=
  if s.loading then .spinner
  else
    match s.error with
    | some m => .errorView m
    | none => .mapView s.stops

/-- Whether the single `getStops` call inside `fetchStops` ends in a failing
branch of the source: a transport throw, a non-ok response, or a body that
fails the success guard. -/
def outcomeFails (o : HttpOutcome (ApiResponse StopsData)) : Bool :=
  match o with
  | .throwErr _ => true
  | .resp ok body =>
      !ok || !(body.status == "success" && body.data.sample_stops.isSome)

end TransportMap

/-- Boolean lexicographic order on character lists (by code point), used to
state the tie-break ordering the claim about `getSystemStats` describes. -/
def charListLe : List Char → List Char → Bool
  | [], _ => true
  | _ :: _, [] => false
  | a :: as, b :: bs =>
      if a.toNat < b.toNat then true
      else if a.toNat = b.toNat then charListLe as bs
      else false

/-- Modelled from the claim wording for `getSystemStats`: the top list is
ranked in descending order of capacity (`aforo_promedio`), ties broken by
identifier (`ageb`) ascending.  This is a spec-side definition, written to
be compared with what the code returns; it embeds no code. -/
def specRankedTopList : List TopAgeb → Bool
  | [] => true
  | [_] => true
  | a :: b :: rest =>
      (decide (b.aforo_promedio < a.aforo_promedio) ||
        (a.aforo_promedio == b.aforo_promedio && charListLe a.ageb.data b.ageb.data)) &&
      specRankedTopList (b :: rest)

end ATY

namespace ATY

/-- A concrete `{status "error", message ...}` body for the stops endpoint,
as in the spec example: `data` carries no `sample_stops` key. -/
def errorStatusBody : ApiResponse StopsData :=
  { status := "error", data := { sample_stops := none }, message := some "Error interno" }

/-- Claim C1: for every backend response whose top-level status field is not
success, the stops fetch pipeline (Repository call plus the component
handling in `fetchStops`) ends in a failure state for the stops resource —
the error message is set and loading is cleared — and the computation
settles in a state rather than escaping with an exception (the embedded
`fetchStops` is a total function: the `try`/`catch`/`finally` of the source
catches every throw). -/
theorem fetchStops_nonSuccess_status_yields_failure (s : TransportMap.MapState)
    (body : ApiResponse StopsData) (h : body.status ≠ "success") :
    (TransportMap.fetchStops s (.resp true body)).error =
      some "No se pudieron cargar las paradas"
  ∧ (TransportMap.fetchStops s (.resp true body)).loading = false := by
  have hg : (body.status == "success") = false := by
    simpa using h
  constructor <;>
    simp [TransportMap.fetchStops, transportAPI.getStops, hg]

/-- Witness for claim C1 at the concrete spec example body
`{status "error", message ...}`. -/
theorem fetchStops_nonSuccess_status_yields_failure_witness :
    errorStatusBody.status ≠ "success"
  ∧ ((TransportMap.fetchStops TransportMap.initialState (.resp true errorStatusBody)).error =
        some "No se pudieron cargar las paradas"
    ∧ (TransportMap.fetchStops TransportMap.initialState (.resp true errorStatusBody)).loading =
        false) :=
  ⟨by decide,
   fetchStops_nonSuccess_status_yields_failure TransportMap.initialState errorStatusBody
     (by decide)⟩

/-- A concrete successful alternative-routes body. -/
def altOkBody : ApiResponse AlternativesData :=
  { status := "success", data := { alternatives := some [] }, message := none }

/-- Counterexample to claim C2: calling `getAlternativeRoutes` with an empty
origin (`getAlternativeRoutes "" "B"`) issues one network request — with the
empty identifier interpolated into the query string — and, far from failing
with a validation error, succeeds when the network does: the source performs
no validation at all. -/
theorem getAlternativeRoutes_empty_origin_counterexample :
    (transportAPI.getAlternativeRoutes "" "B" (.resp true altOkBody)).1.length = 1
  ∧ (transportAPI.getAlternativeRoutes "" "B" (.resp true altOkBody)).1 =
      [{ url := "/api/rutas/alternativas?origen=&destino=B", timeoutMs := none }]
  ∧ (transportAPI.getAlternativeRoutes "" "B" (.resp true altOkBody)).2 = .ok altOkBody :=
  ⟨rfl, by decide, rfl⟩

/-- Claim C2 as amended: `getAlternativeRoutes` validates nothing — for
every pair of identifiers, empty or not, it issues exactly one network
request, with the identifiers interpolated verbatim into the query string;
no validation failure exists in the Repository. -/
theorem getAlternativeRoutes_always_issues_request (origen destino : String)
    (o : HttpOutcome (ApiResponse AlternativesData)) :
    (transportAPI.getAlternativeRoutes origen destino o).1.length = 1
  ∧ (transportAPI.getAlternativeRoutes origen destino o).1 =
      [{ url := config.endpoints.alternativeRoutes ++ "?origen=" ++ origen ++
            "&destino=" ++ destino,
          timeoutMs := none }] :=
  ⟨rfl, rfl⟩

/-- Claim C10: however the single `getStops` call inside `fetchStops`
settles — success, non-success response body, or a thrown transport error —
the loading flag is false afterwards, so the component cannot remain in the
Loading state once the fetch completes (the `finally` block of the source
runs on every path). -/
theorem fetchStops_loading_false_after_settle (s : TransportMap.MapState)
    (o : HttpOutcome (ApiResponse StopsData)) :
    (TransportMap.fetchStops s o).loading = false := rfl

/-- A concrete stop, as in the spec example payload. -/
def stopCentro : Stop :=
  { stop_id := "1", stop_name := "Centro", stop_lat := 20, stop_lon := -89 }

/-- Component state after a successful earlier fetch stored one stop. -/
def priorSuccessState : TransportMap.MapState :=
  { stops := [stopCentro], loading := false, error := none }

/-- Counterexample to claim C3: from a state holding a previously fetched
stop, a failing fetch sets the error but leaves the previously stored stops
list untouched — the prior Success payload is retained in the store, not
discarded (the `catch` branch of the source calls `setError` only and never
clears `stops`). -/
theorem reject_retains_prior_stops_counterexample :
    (TransportMap.fetchStops priorSuccessState (.throwErr "Error de red")).error =
      some "Error de red"
  ∧ (TransportMap.fetchStops priorSuccessState (.throwErr "Error de red")).stops =
      [stopCentro]
  ∧ (TransportMap.fetchStops priorSuccessState (.throwErr "Error de red")).stops ≠ [] := by
  refine ⟨rfl, rfl, by decide⟩

/-- Claim C3 as amended: on every failing outcome the component records the
error and the renderer shows the error view — not the stale map — but the
prior Success payload is retained unchanged in the component state rather
than discarded. -/
theorem reject_shows_error_but_retains_payload (s : TransportMap.MapState)
    (o : HttpOutcome (ApiResponse StopsData)) (h : TransportMap.outcomeFails o = true) :
    (TransportMap.fetchStops s o).stops = s.stops
  ∧ ∃ m, (TransportMap.fetchStops s o).error = some m
      ∧ TransportMap.render (TransportMap.fetchStops s o) = .errorView m := by
  cases o with
  | throwErr m => exact ⟨rfl, m, rfl, rfl⟩
  | resp ok body =>
      cases ok with
      | false => exact ⟨rfl, "Error al obtener paradas", rfl, rfl⟩
      | true =>
          cases hg : (body.status == "success" && body.data.sample_stops.isSome) with
          | true => simp [TransportMap.outcomeFails, hg] at h
          | false =>
              refine ⟨?_, "No se pudieron cargar las paradas", ?_, ?_⟩ <;>
                simp [TransportMap.fetchStops, transportAPI.getStops, TransportMap.render, hg]

/-- Witness for the amended claim C3 at a concrete failing outcome and a
state with prior data. -/
theorem reject_shows_error_but_retains_payload_witness :
    TransportMap.outcomeFails (.throwErr "Error de conexión") = true
  ∧ ((TransportMap.fetchStops priorSuccessState (.throwErr "Error de conexión")).stops =
        priorSuccessState.stops
    ∧ ∃ m, (TransportMap.fetchStops priorSuccessState (.throwErr "Error de conexión")).error =
          some m
        ∧ TransportMap.render
            (TransportMap.fetchStops priorSuccessState (.throwErr "Error de conexión")) =
            .errorView m) :=
  ⟨rfl,
   reject_shows_error_but_retains_payload priorSuccessState (.throwErr "Error de conexión") rfl⟩

/-- A concrete stats body whose top list is not in descending capacity
order. -/
def statsUnrankedBody : ApiResponse SystemStatsData :=
  { status := "success"
    data :=
      { total_agebs := 2, total_paradas := 0, total_rutas := 0, aforo_total := 3,
        top_agebs_por_aforo :=
          [{ ageb := "A", aforo_promedio := 1 }, { ageb := "B", aforo_promedio := 2 }] }
    message := none }

/-- Counterexample to claim C4: `getSystemStats` returns the backend payload
verbatim — here a payload whose top list is not in descending capacity
order — so the claimed ranking (descending `aforo`, ties by identifier
ascending) does not hold of what the call returns: no ranking is applied in
the code. -/
theorem getSystemStats_unranked_counterexample :
    (transportAPI.getSystemStats (.resp true statsUnrankedBody)).2 = .ok statsUnrankedBody
  ∧ specRankedTopList statsUnrankedBody.data.top_agebs_por_aforo = false :=
  ⟨rfl, by decide⟩

/-- Claim C4 as amended: `getSystemStats` takes no input beyond the network
outcome and returns the parsed payload unchanged — counters and top list
alike — applying no ordering of its own; the top-list order is exactly
whatever the backend supplied. -/
theorem getSystemStats_returns_payload_verbatim (body : ApiResponse SystemStatsData) :
    (transportAPI.getSystemStats (.resp true body)).2 = .ok body
  ∧ (match (transportAPI.getSystemStats (.resp true body)).2 with
      | .ok r => r.data.top_agebs_por_aforo
      | .error _ => []) = body.data.top_agebs_por_aforo :=
  ⟨rfl, rfl⟩

/-- Counterexample to claim C5: the one request `getStops` issues carries no
timeout at all — `fetch` is called with no init options, so no fixed bound
(10 s or otherwise) applies and a hanging call is not converted to a
network error by this layer. -/
theorem getStops_request_without_timeout_counterexample :
    (transportAPI.getStops (.throwErr "timeout")).1.map Request.timeoutMs = [none] := rfl

/-- Claim C5 as amended: no Repository call configures a timeout — for every
operation, argument and outcome, every request issued carries no timeout
setting. -/
theorem repository_requests_carry_no_timeout :
    (∀ o : HttpOutcome (ApiResponse StopsData),
      ((transportAPI.getStops o).1.all fun r => r.timeoutMs.isNone) = true)
  ∧ (∀ o : HttpOutcome (ApiResponse RoutesData),
      ((transportAPI.getRoutes o).1.all fun r => r.timeoutMs.isNone) = true)
  ∧ (∀ (origen destino : String) (o : HttpOutcome (ApiResponse AlternativesData)),
      ((transportAPI.getAlternativeRoutes origen destino o).1.all
        fun r => r.timeoutMs.isNone) = true)
  ∧ (∀ (ageb : String) (o : HttpOutcome (ApiResponse AnalysisData)),
      ((transportAPI.getCoverageAnalysis ageb o).1.all fun r => r.timeoutMs.isNone) = true)
  ∧ (∀ o : HttpOutcome (ApiResponse SystemStatsData),
      ((transportAPI.getSystemStats o).1.all fun r => r.timeoutMs.isNone) = true) :=
  ⟨fun _ => rfl, fun _ => rfl, fun _ _ _ => rfl, fun _ _ => rfl, fun _ => rfl⟩

/-- Claim C6: every Repository operation issues exactly one network request
per invocation, whatever the arguments and whatever the outcome — no retry
and no backoff exist in this layer. -/
theorem repository_single_attempt :
    (∀ o : HttpOutcome (ApiResponse StopsData),
      (transportAPI.getStops o).1.length = 1)
  ∧ (∀ o : HttpOutcome (ApiResponse RoutesData),
      (transportAPI.getRoutes o).1.length = 1)
  ∧ (∀ (origen destino : String) (o : HttpOutcome (ApiResponse AlternativesData)),
      (transportAPI.getAlternativeRoutes origen destino o).1.length = 1)
  ∧ (∀ (ageb : String) (o : HttpOutcome (ApiResponse AnalysisData)),
      (transportAPI.getCoverageAnalysis ageb o).1.length = 1)
  ∧ (∀ o : HttpOutcome (ApiResponse SystemStatsData),
      (transportAPI.getSystemStats o).1.length = 1) :=
  ⟨fun _ => rfl, fun _ => rfl, fun _ _ _ => rfl, fun _ _ => rfl, fun _ => rfl⟩

/-- Claim C7: the live-channel URL is derived from the page location — it is
the socket scheme followed by the page host and the fixed path, where the
secure page scheme `https:` maps to `wss:` and any other page scheme (in
particular the insecure `http:`) maps to `ws:`. -/
theorem connectToWebSocket_scheme_and_host (h : String) :
    (transportAPI.connectToWebSocket { protocol := "https:", host := h }).url =
      "wss://" ++ h ++ "/ws/va-y-ven"
  ∧ ∀ p, p ≠ "https:" →
      (transportAPI.connectToWebSocket { protocol := p, host := h }).url =
        "ws://" ++ h ++ "/ws/va-y-ven" := by
  constructor
  · simp only [transportAPI.connectToWebSocket, eq_self_iff_true, if_true]
    rfl
  · intro p hp
    simp only [transportAPI.connectToWebSocket, if_neg hp]
    rfl

/-- Witness for claim C7 at a concrete host and the insecure scheme. -/
theorem connectToWebSocket_scheme_and_host_witness :
    (transportAPI.connectToWebSocket { protocol := "https:", host := "example.com" }).url =
      "wss://" ++ "example.com" ++ "/ws/va-y-ven"
  ∧ (transportAPI.connectToWebSocket { protocol := "http:", host := "example.com" }).url =
      "ws://" ++ "example.com" ++ "/ws/va-y-ven" :=
  ⟨(connectToWebSocket_scheme_and_host "example.com").1,
   (connectToWebSocket_scheme_and_host "example.com").2 "http:" (by decide)⟩

/-- Claim C8: for every page location, the handlers `connectToWebSocket`
installs for the close and the error events perform only logging — no
action of either handler opens a new connection, so the channel never
reconnects by itself after a Connected-to-Disconnected transition. -/
theorem ws_close_error_handlers_never_reconnect (loc : PageLocation) :
    (((transportAPI.connectToWebSocket loc).onclose.all fun a => !a.isConnect) = true)
  ∧ (((transportAPI.connectToWebSocket loc).onerror.all fun a => !a.isConnect) = true)
  ∧ (((transportAPI.connectToWebSocket loc).onclose.all WsAction.isLog) = true)
  ∧ (((transportAPI.connectToWebSocket loc).onerror.all WsAction.isLog) = true) :=
  ⟨rfl, rfl, rfl, rfl⟩

/-- Claim C9: for every page location, `connectToWebSocket` installs no
message handler at all, and every action of the handlers it does install
(open, error, close) is a log — none writes fetched-resource state — so no
inbound socket message can be routed into any stored stops, routes or
coverage data. -/
theorem connectToWebSocket_routes_no_messages (loc : PageLocation) :
    (transportAPI.connectToWebSocket loc).onmessage = none
  ∧ ((((transportAPI.connectToWebSocket loc).onopen ++
        (transportAPI.connectToWebSocket loc).onerror ++
        (transportAPI.connectToWebSocket loc).onclose).all
      fun a => !a.isStoreWrite) = true)
  ∧ ((((transportAPI.connectToWebSocket loc).onopen ++
        (transportAPI.connectToWebSocket loc).onerror ++
        (transportAPI.connectToWebSocket loc).onclose).all
      WsAction.isLog) = true) :=
  ⟨rfl, rfl, rfl⟩

end ATY
